import Mathlib

/-!
Verification of the widget-identity / state-reconciliation core of the
`streamlit-HQ` repository against its natural-language specification.

The embedding below is a shallow translation of the Python sources:

* `src/lib/streamlit/elements/widgets/options_selector/options_selector_utils.py`
* `src/lib/streamlit/elements/widgets/options_selector/button_group.py`
* `src/lib/streamlit/commands/pages.py`

Python's dynamically typed values are modelled by a small universe
(`PyScalar` for scalars, containers carried explicitly), with Python `==`
rendered as structural (decidable) equality, Python truthiness made explicit,
and raising exceptions rendered as `Except PyError`.  Differences that cannot
matter for the verified properties are noted at each definition (e.g. numpy
arrays / pandas series are outside the universe, and the surrounding quote
characters of Python error messages are elided while all words and numbers
are kept).
-/

set_option maxRecDepth 8000

deriving instance DecidableEq for Except

/-- A Python scalar value as used by the options-selector code: `None`,
an `int`, or a `str`.  Python `==` on these values is structural equality. -/
inductive PyScalar where
  | none : PyScalar
  | int : Int → PyScalar
  | str : String → PyScalar
  deriving DecidableEq, Repr

/-- Python `str(v)` on the scalar universe (used by f-string interpolation
in error messages). -/
def pyStr : PyScalar → String
  | PyScalar.none => "None"
  | PyScalar.int n => toString n
  | PyScalar.str s => s

/-- Python truthiness (`if v:`) on the scalar universe: `None` is falsy,
an int is truthy iff nonzero, a string is truthy iff nonempty. -/
def pyTruthy : PyScalar → Bool
  | PyScalar.none => false
  | PyScalar.int n => n != 0
  | PyScalar.str s => s != ""

/-- The shape of the `default_values` argument of
`_check_and_convert_to_indices`: a Python scalar (with `None` represented as
`.scalar .none`), a `list`, a `tuple`, or a `set`.  Numpy arrays and pandas
series, which the source converts with `list(...)` after an `is_type` check,
are outside this universe; none of the verified properties involve them.
A Python `set` has no canonical iteration order; it is modelled here as an
ordered list, which is enough for the properties below (none depends on
set ordering). -/
inductive PyDefault where
  | scalar : PyScalar → PyDefault
  | list : List PyScalar → PyDefault
  | tuple : List PyScalar → PyDefault
  | set : List PyScalar → PyDefault
  deriving DecidableEq, Repr

/-- Exceptions raised by the embedded code. -/
inductive PyError where
  | typeError : String → PyError
  | streamlitAPIException : String → PyError
  | indexError : PyError
  deriving DecidableEq, Repr

/-- Python `list(v)` applied to a scalar: a string is exploded into its
characters; `int` and `None` are not iterable and raise `TypeError`.
(The quote characters of the CPython message are elided.) -/
def pyListOfScalar : PyScalar → Except PyError (List PyScalar)
  | PyScalar.str s => Except.ok (s.toList.map (fun c => PyScalar.str (String.singleton c)))
  | PyScalar.int _ => Except.error (PyError.typeError "int object is not iterable")
  | PyScalar.none => Except.error (PyError.typeError "NoneType object is not iterable")

/-- The message of the invalid-default `StreamlitAPIException` raised by
`_check_and_convert_to_indices` (source lines 114-117); the quote characters
around the interpolated value are elided, all words are kept. -/
def invalidDefaultMsg (value : PyScalar) : String :=
  "The default value " ++ pyStr value ++ " is not part of the options. " ++
    "Please make sure that every default values also exists in the options."

/-- Embeds `_check_and_convert_to_indices` (options_selector_utils.py,
lines 89-119).

* `if default_values is None and None not in opt: return None`;
* the numpy/pandas branch is outside the universe (see `PyDefault`);
* `elif isinstance(default_values, (tuple, set)) or default_values and
  default_values not in opt: default_values = list(default_values)`
  (Python parses this as `A or (B and C)`);
* `else: default_values = [default_values]`;
* the `for` loop raises the invalid-default exception at the first value
  absent from `opt`;
* `return [opt.index(value) for value in default_values]` — `opt.index`
  is `List.indexOf` (first match); the loop has already guaranteed
  membership, so Python's `ValueError` on a missing value cannot occur. -/
def check_and_convert_to_indices (opt : List PyScalar) (default_values : PyDefault) :
    Except PyError (Option (List Nat)) :=
  if default_values = PyDefault.scalar PyScalar.none ∧ PyScalar.none ∉ opt then
    Except.ok Option.none
  else
    let converted : Except PyError (List PyScalar) :=
      match default_values with
      | PyDefault.list xs => Except.ok xs
      | PyDefault.tuple xs => Except.ok xs
      | PyDefault.set xs => Except.ok xs
      | PyDefault.scalar v =>
          if pyTruthy v ∧ v ∉ opt then pyListOfScalar v
          else Except.ok [v]
    match converted with
    | Except.error e => Except.error e
    | Except.ok dvs =>
        match dvs.find? (fun v => !(opt.contains v)) with
        | Option.some v => Except.error (PyError.streamlitAPIException (invalidDefaultMsg v))
        | Option.none => Except.ok (Option.some (dvs.map (fun v => opt.indexOf v)))

/-- Embeds the dataclass `MultiSelectSerde` (options_selector_utils.py,
lines 69-72): the `OptionSet` snapshot and the default indices the serde
pair is bound to. -/
structure MultiSelectSerde where
  options : List PyScalar
  default_value : List Nat := []
  deriving DecidableEq, Repr

/-- Embeds `MultiSelectSerde.serialize` (options_selector_utils.py,
lines 74-76): `indices = _check_and_convert_to_indices(self.options, value)`
on the caller's `list` value, `return indices if indices is not None else []`.
The validation raised by `_check_and_convert_to_indices` propagates. -/
def MultiSelectSerde.serialize (s : MultiSelectSerde) (value : List PyScalar) :
    Except PyError (List Nat) :=
  match check_and_convert_to_indices s.options (PyDefault.list value) with
  | Except.error e => Except.error e
  | Except.ok (Option.some indices) => Except.ok indices
  | Except.ok Option.none => Except.ok []

/-- Embeds `MultiSelectSerde.deserialize` (options_selector_utils.py,
lines 78-86): `current_value = ui_value if ui_value is not None else
self.default_value; return [self.options[i] for i in current_value]`.
Python indexing raises `IndexError` when an index is out of range. -/
def MultiSelectSerde.deserialize (s : MultiSelectSerde) (ui_value : Option (List Nat)) :
    Except PyError (List PyScalar) :=
  let current_value : List Nat := ui_value.getD s.default_value
  current_value.mapM (fun i =>
    match s.options[i]? with
    | Option.some x => Except.ok x
    | Option.none => Except.error PyError.indexError)

/-- Embeds `_get_over_max_options_message` (options_selector_utils.py,
lines 122-131), including the singular/plural noun choice.  The limit is an
`Int` exactly as in the source (`max_selections: int`).  The apostrophe of
"widget's" is elided ("widget state"); every other word, the backticks and
the line breaks of the Python triple-quoted string are kept. -/
def get_over_max_options_message (current_selections : Nat) (max_selections : Int) : String :=
  let curr_selections_noun := if current_selections = 1 then "option" else "options"
  let max_selections_noun := if max_selections = 1 then "option" else "options"
  "\nMultiselect has " ++ toString current_selections ++ " " ++ curr_selections_noun ++
    " selected but `max_selections`\nis set to " ++ toString max_selections ++
    ". This happened because you either gave too many options to `default`\n" ++
    "or you manipulated the widget state through `st.session_state`. Note that\n" ++
    "the latter can happen before the line indicated in the traceback.\n" ++
    "Please select at most " ++ toString max_selections ++ " " ++ max_selections_noun ++ ".\n"

/-- A widget's application-facing value at registration time: either a
scalar (single-select widgets, possibly `None`) or a list (multi-select
widgets). -/
inductive PyValue where
  | scalar : PyScalar → PyValue
  | list : List PyScalar → PyValue
  deriving DecidableEq, Repr

/-- Embeds `_get_default_count` (options_selector_utils.py, lines 134-139):
`None` counts 0, a non-iterable value counts 1, an iterable value counts
`len(...)`.  In Python a `str` is iterable, so a string scalar counts its
length. -/
def get_default_count (default : PyValue) : Nat :=
  match default with
  | PyValue.scalar PyScalar.none => 0
  | PyValue.scalar (PyScalar.str s) => s.length
  | PyValue.scalar (PyScalar.int _) => 1
  | PyValue.list xs => xs.length

/-- Embeds `RegisterWidgetResult` (streamlit.runtime.state.common), as used
by the source: the deserialized value and the `value_changed` flag computed
by the external `register_widget`. -/
structure RegisterWidgetResult where
  value : PyValue
  value_changed : Bool
  deriving DecidableEq, Repr

/-- The fields of the outgoing `ButtonGroup` protobuf touched by the embedded
code.  Proto3 field defaults: empty list and `false`. -/
structure ButtonGroupProto where
  id : String := ""
  default : List Nat := []
  form_id : String := ""
  disabled : Bool := false
  click_mode : Nat := 0
  options : List String := []
  selection_visualization : Nat := 0
  value : List Nat := []
  set_value : Bool := false
  deriving DecidableEq, Repr

/-- Embeds `_build_proto` (button_group.py, lines 63-85): every field it
assigns, starting from a fresh proto.  The formatted options are modelled by
their content strings. -/
def build_proto (widget_id : String) (formatted_options : List String)
    (default_values : List Nat) (disabled : Bool) (form_id : String)
    (click_mode : Nat) (selection_visualization : Nat) : ButtonGroupProto :=
  { id := widget_id
    default := default_values
    form_id := form_id
    disabled := disabled
    click_mode := click_mode
    options := formatted_options
    selection_visualization := selection_visualization }

/-- Modelled from the spec: `maybe_coerce_enum` / `maybe_coerce_enum_sequence`
(imported from `streamlit.elements.lib.utils`, which is not part of this
excerpt).  Per the spec's Coercion step, each element of the stored value
that is structurally equal to an element of the current `OptionSet` is
rewritten to reference the current run's object; in this structural
embedding that is the first structurally equal element of
`indexable_options`, and elements without a match are kept.  The
`value_changed` flag is preserved. -/
def maybe_coerce_enum_value (indexable_options : List PyScalar) (x : PyScalar) : PyScalar :=
  if x ∈ indexable_options then (indexable_options[indexable_options.indexOf x]?).getD x
  else x

/-- Modelled from the spec: the list form of the Coercion step, applied
elementwise; see `maybe_coerce_enum_value`. -/
def maybe_coerce_enum_sequence (ws : RegisterWidgetResult)
    (indexable_options : List PyScalar) : RegisterWidgetResult :=
  match ws.value with
  | PyValue.list xs =>
      { value := PyValue.list (xs.map (maybe_coerce_enum_value indexable_options))
        value_changed := ws.value_changed }
  | PyValue.scalar _ => ws

/-- Modelled from the spec: the scalar form of the Coercion step; see
`maybe_coerce_enum_value`. -/
def maybe_coerce_enum (ws : RegisterWidgetResult)
    (indexable_options : List PyScalar) : RegisterWidgetResult :=
  match ws.value with
  | PyValue.scalar x =>
      { value := PyValue.scalar (maybe_coerce_enum_value indexable_options x)
        value_changed := ws.value_changed }
  | PyValue.list _ => ws

/-- The coercion dispatch of options_selector_utils.py, lines 206-211:
`maybe_coerce_enum_sequence` for a `list` value, `maybe_coerce_enum`
otherwise. -/
def coerce_widget_value (ws : RegisterWidgetResult) (indexable_options : List PyScalar) :
    RegisterWidgetResult :=
  match ws.value with
  | PyValue.list _ => maybe_coerce_enum_sequence ws indexable_options
  | PyValue.scalar _ => maybe_coerce_enum ws indexable_options

/-- The observable steps `register_widget_and_enqueue` performs after the
external `register_widget` call, in program order.  `maxSelectionsCheck`
records the count it compared against the limit. -/
inductive RegStep where
  | maxSelectionsCheck : Nat → RegStep
  | enumCoercion : RegStep
  | emit : RegStep
  deriving DecidableEq, Repr

/-- Embeds the body of `register_widget_and_enqueue`
(options_selector_utils.py, lines 190-221) after the external
`register_widget` call, which is modelled by its result `widget_state`:

* lines 201-205: `default_count = _get_default_count(widget_state.value)`,
  then `if max_selections and default_count > max_selections: raise
  StreamlitAPIException(_get_over_max_options_message(...))` — note the
  Python truthiness test on `max_selections` (`None` and `0` are falsy);
* lines 206-211: the enum coercion (`maybe_coerce_enum_sequence` for a
  `list` value, `maybe_coerce_enum` otherwise);
* lines 213-215: `if widget_state.value_changed: proto.value[:] =
  serializer(widget_state.value); proto.set_value = True`;
* lines 217-219 (`save_for_app_testing`, `dg._enqueue`) are external side
  effects, represented by the final `emit` step.

The serializer is modelled as a total function, as every serializer used on
this path is total on the values reaching it.  The result pairs the list of
performed steps, in order, with either the raised exception or the final
proto and returned value. -/
def register_widget_and_enqueue_tail (widget_state : RegisterWidgetResult)
    (proto : ButtonGroupProto) (indexable_options : List PyScalar)
    (serializer : PyValue → List Nat) (max_selections : Option Int) :
    List RegStep × Except PyError (ButtonGroupProto × PyValue) :=
  let default_count := get_default_count widget_state.value
  if max_selections.getD 0 ≠ 0 ∧ (default_count : Int) > (max_selections.getD 0) then
    ([RegStep.maxSelectionsCheck default_count],
      Except.error (PyError.streamlitAPIException
        (get_over_max_options_message default_count (max_selections.getD 0))))
  else
    let coerced : RegisterWidgetResult :=
      coerce_widget_value widget_state indexable_options
    let proto2 : ButtonGroupProto :=
      if coerced.value_changed then
        { proto with value := serializer coerced.value, set_value := true }
      else proto
    ([RegStep.maxSelectionsCheck default_count, RegStep.enumCoercion, RegStep.emit],
      Except.ok (proto2, coerced.value))

/-- Embeds the `Page` dataclass of `streamlit/commands/pages.py` as
`navigation` consumes it: `page` is `str(self.page)` (the resolved path
string, or the callable's name), and `_script_hash` is `calc_md5(str(self.page))`
with `calc_md5` (from `streamlit.util`, external to this excerpt) passed in
as an explicit hash-function parameter. -/
structure Page where
  page : String
  title : String := ""
  icon : String := ""
  default : Bool := false
  deriving DecidableEq, Repr

/-- Embeds `Page._script_hash` (pages.py, lines 76-79): `calc_md5(str(self.page))`. -/
def Page.script_hash (md5 : String → String) (p : Page) : String := md5 p.page

/-- Python `dict` insertion `d[k] = v`: an existing key keeps its position
and gets the new value; a new key is appended. -/
def dictInsert (d : List (String × Page)) (k : String) (v : Page) : List (String × Page) :=
  if d.any (fun kv => kv.1 = k) then
    d.map (fun kv => if kv.1 = k then (k, v) else kv)
  else d ++ [(k, v)]

/-- Embeds `navigation` (pages.py, lines 82-118).  The input is taken in its
dict form `dict[str, list[Page]]` — a plain `list[Page]` argument is first
wrapped as `{"": pages}` by the source (lines 90-91), i.e. `[("", pages)]`
here.  The `ForwardMsg` built on lines 93-103 is an external side effect with
no influence on the returned page and is not modelled.  Lines 105-118:

* `page_dict` maps `page._script_hash` to the page, in insertion order
  (sections in order, pages of a section in order);
* `page = page_dict[ctx.page_script_hash]`, and on `KeyError` the code
  prints "falling back to default page" and takes
  `list(page_dict.values())[0]` — which raises `IndexError` when the dict is
  empty.

The result carries the page together with a flag recording whether the
fallback diagnostic was printed.  The `page_dict` construction (lines
105-109) is split out as `navPageDict`. -/
def navPageDict (md5 : String → String) (pages : List (String × List Page)) :
    List (String × Page) :=
  (pages.map Prod.snd).flatten.foldl
    (fun d p => dictInsert d (Page.script_hash md5 p) p) []

/-- The page-resolution part of `navigation` (pages.py, lines 110-118); see
the comment on `navPageDict` for the whole function. -/
def navigation (md5 : String → String) (pages : List (String × List Page))
    (ctx_page_script_hash : String) : Except PyError (Page × Bool) :=
  let page_dict : List (String × Page) := navPageDict md5 pages
  match page_dict.find? (fun kv => kv.1 = ctx_page_script_hash) with
  | Option.some kv => Except.ok (kv.2, false)
  | Option.none =>
      match page_dict with
      | [] => Except.error PyError.indexError
      | kv :: _ => Except.ok (kv.2, true)

/-- Modelled from the spec: the `WidgetIdentity` produced by
`compute_widget_id` (defined in `streamlit.runtime.state.common`, which is
not part of this excerpt).  Per spec §3 and §4.2 it is a content hash of
exactly the fields `_button_group` passes (button_group.py, lines 306-315):
widget kind, `user_key`, `key`, the formatted option labels, the default
indices, the disabled flag, the per-widget `selection_visualization` field,
and the page identity — with the invariant that identical inputs give the
same identity and changing any input changes it; the token is therefore
modelled as the (injective) record of those fields. -/
structure WidgetIdentity where
  widget_name : String
  user_key : Option String
  key : Option String
  options : List String
  default : List Nat
  disabled : Bool
  selection_visualization : Nat
  page : Option String
  deriving DecidableEq, Repr

/-- Modelled from the spec: `compute_widget_id` as called by `_button_group`
(button_group.py, lines 306-315); see `WidgetIdentity`. -/
def compute_widget_id (widget_name : String) (user_key : Option String)
    (key : Option String) (options : List String) (default : List Nat)
    (disabled : Bool) (selection_visualization : Nat) (page : Option String) :
    WidgetIdentity :=
  { widget_name := widget_name
    user_key := user_key
    key := key
    options := options
    default := default
    disabled := disabled
    selection_visualization := selection_visualization
    page := page }

/-- The `options` argument of `ButtonGroupMixin.feedback`: a string label or
a list (the `isinstance(options, list)` branch of the check). -/
inductive FeedbackArg where
  | str : String → FeedbackArg
  | list : List PyScalar → FeedbackArg
  deriving DecidableEq, Repr

/-- Modelled from the spec: `get_args(FeedbackOptions)` — the `Literal`
labels of `FeedbackOptions`, defined in `feedback_utils.py` which is not
part of this excerpt; per the spec (and the source's own docstring and error
message) they are "thumbs", "faces" and "stars". -/
def feedbackOptionLabels : List String := ["thumbs", "faces", "stars"]

/-- The message of the invalid-feedback-option `StreamlitAPIException`
(button_group.py, lines 203-207); the quote characters are elided, the
listed labels and every word are kept. -/
def invalidFeedbackOptionMsg (options : String) : String :=
  "The options argument to st.feedback must be one of [thumbs, faces, stars]. The argument passed was "
    ++ options ++ "."

/-- Embeds the options check of `ButtonGroupMixin.feedback`
(button_group.py, lines 202-207): `if not isinstance(options, list) and
options not in get_args(FeedbackOptions): raise StreamlitAPIException(...)`.
A list-typed argument short-circuits the check. -/
def feedback_check_options (options : FeedbackArg) : Except PyError Unit :=
  match options with
  | FeedbackArg.list _ => Except.ok ()
  | FeedbackArg.str s =>
      if s ∉ feedbackOptionLabels then
        Except.error (PyError.streamlitAPIException (invalidFeedbackOptionMsg s))
      else Except.ok ()

/-- `strContains s pat` holds when `pat` occurs as a substring of `s`:
some suffix of `s` starts with `pat`. -/
def strContains (s pat : String) : Bool :=
  s.toList.tails.any (fun t => pat.toList.isPrefixOf t)

/-- Recognizes the max-selections check step in an execution trace. -/
def RegStep.isMaxCheck : RegStep → Bool
  | RegStep.maxSelectionsCheck _ => true
  | _ => false

/-- Recognizes the enum-coercion step in an execution trace. -/
def RegStep.isCoercion : RegStep → Bool
  | RegStep.enumCoercion => true
  | _ => false

/-- `stepPrecedes t p q` holds when a step satisfying `p` occurs in trace `t`
strictly before the first step satisfying `q`. -/
def stepPrecedes (t : List RegStep) (p q : RegStep → Bool) : Bool :=
  match t.findIdx? p, t.findIdx? q with
  | Option.some i, Option.some j => decide (i < j)
  | _, _ => false

/-! ## Helper lemmas (shared, not claim theorems) -/

/-- A `list`-shaped default reduces to the membership loop followed by the
index mapping. -/
theorem ccti_list_eq (opt : List PyScalar) (dvs : List PyScalar) :
    check_and_convert_to_indices opt (PyDefault.list dvs) =
      (match dvs.find? (fun v => !(opt.contains v)) with
       | Option.some v => Except.error (PyError.streamlitAPIException (invalidDefaultMsg v))
       | Option.none => Except.ok (Option.some (dvs.map (fun v => opt.indexOf v)))) := by
  unfold check_and_convert_to_indices
  rw [if_neg (by simp)]

/-- When every element of the caller's value is an option, `serialize`
returns the `OptionSet` index of each value, in caller order. -/
theorem serialize_eq_of_mem (s : MultiSelectSerde) (v : List PyScalar)
    (h : ∀ x ∈ v, x ∈ s.options) :
    s.serialize v = Except.ok (v.map (fun x => s.options.indexOf x)) := by
  have hfind : v.find? (fun x => !(s.options.contains x)) = Option.none := by
    rw [List.find?_eq_none]
    intro x hx
    simp [h x hx]
  unfold MultiSelectSerde.serialize
  rw [ccti_list_eq, hfind]

/-- Looking each `indexOf` position back up returns the original values. -/
theorem deserialize_map_indexOf (opts : List PyScalar) (v : List PyScalar)
    (h : ∀ x ∈ v, x ∈ opts) :
    (v.map (fun x => opts.indexOf x)).mapM (fun i =>
      match opts[i]? with
      | Option.some x => Except.ok x
      | Option.none => Except.error PyError.indexError) = Except.ok v := by
  induction v with
  | nil => rfl
  | cons x xs ih =>
      have hx : opts[opts.indexOf x]? = Option.some x :=
        List.getElem?_indexOf (h x (List.mem_cons_self x xs))
      rw [List.map_cons, List.mapM_cons, hx]
      rw [ih (fun y hy => h y (List.mem_cons_of_mem x hy))]
      rfl

/-- Both coercion forms leave the `value_changed` flag unchanged. -/
theorem coerce_preserves_value_changed (ws : RegisterWidgetResult)
    (iopts : List PyScalar) :
    (maybe_coerce_enum_sequence ws iopts).value_changed = ws.value_changed ∧
    (maybe_coerce_enum ws iopts).value_changed = ws.value_changed := by
  obtain ⟨val, ch⟩ := ws
  cases val <;> exact ⟨rfl, rfl⟩

/-- The coercion dispatch leaves the `value_changed` flag unchanged. -/
theorem coerce_widget_value_changed (ws : RegisterWidgetResult)
    (iopts : List PyScalar) :
    (coerce_widget_value ws iopts).value_changed = ws.value_changed := by
  obtain ⟨val, ch⟩ := ws
  cases val <;> simp [coerce_widget_value, maybe_coerce_enum_sequence, maybe_coerce_enum]

/-! ## Claim C1 -/

/-- C1 (counterexample): with `options=[a,b,c]` and value `[c,a]`,
`MultiSelectSerde.serialize` returns `[2,0]` (caller order), not the
OptionSet-order `[0,2]` the claim states. -/
theorem C1_counterexample :
    MultiSelectSerde.serialize
        ⟨[PyScalar.str "a", PyScalar.str "b", PyScalar.str "c"], []⟩
        [PyScalar.str "c", PyScalar.str "a"] = Except.ok [2, 0] ∧
    MultiSelectSerde.serialize
        ⟨[PyScalar.str "a", PyScalar.str "b", PyScalar.str "c"], []⟩
        [PyScalar.str "c", PyScalar.str "a"] ≠ Except.ok [0, 2] :=
  ⟨rfl, by decide⟩

/-- C1 (amended): for every option sequence and every multi-valued selection
drawn from it, `MultiSelectSerde.serialize` returns the OptionSet index of
each selected value in the order the caller supplied the values (first
matching index per value), not in stored-OptionSet order; in particular with
`options=[a,b,c]` and value `[c,a]` it returns `[2,0]`. -/
theorem C1_serialize_caller_order (s : MultiSelectSerde) (value : List PyScalar)
    (h : ∀ x ∈ value, x ∈ s.options) :
    s.serialize value = Except.ok (value.map (fun x => s.options.indexOf x)) :=
  serialize_eq_of_mem s value h

/-- C1 witness: the amended theorem applied at `options=[a,b,c]`,
`value=[c,a]`. -/
theorem C1_serialize_caller_order_witness :
    MultiSelectSerde.serialize
        ⟨[PyScalar.str "a", PyScalar.str "b", PyScalar.str "c"], []⟩
        [PyScalar.str "c", PyScalar.str "a"] = Except.ok [2, 0] :=
  C1_serialize_caller_order
    ⟨[PyScalar.str "a", PyScalar.str "b", PyScalar.str "c"], []⟩
    [PyScalar.str "c", PyScalar.str "a"] (by decide)

/-! ## Claim C2 -/

/-- C2 (counterexample): with `options=[1,2,3]` and the scalar default `5`,
`_check_and_convert_to_indices` raises `TypeError` from `list(5)` — not the
invalid-default `StreamlitAPIException` mentioning `5` that the claim
states. -/
theorem C2_counterexample :
    check_and_convert_to_indices [PyScalar.int 1, PyScalar.int 2, PyScalar.int 3]
        (PyDefault.scalar (PyScalar.int 5)) =
      Except.error (PyError.typeError "int object is not iterable") ∧
    check_and_convert_to_indices [PyScalar.int 1, PyScalar.int 2, PyScalar.int 3]
        (PyDefault.scalar (PyScalar.int 5)) ≠
      Except.error (PyError.streamlitAPIException (invalidDefaultMsg (PyScalar.int 5))) :=
  ⟨rfl, by decide⟩

/-- C2 (amended): a default supplied as a list whose elements are not all
options fails with the invalid-default error mentioning the first offending
value — the list splits as `pre ++ w :: suf` with every element of `pre` a
valid option, `w` absent, and the raised message mentioning `w`; but a
truthy non-iterable scalar default absent from the options (such as
`default=5` with `options=[1,2,3]`) instead raises `TypeError` from the
attempted `list(...)` conversion. -/
theorem C2_invalid_default_behaviour (opt : List PyScalar) :
    (∀ dvs : List PyScalar, (∃ v ∈ dvs, v ∉ opt) →
      ∃ pre w suf, dvs = pre ++ w :: suf ∧ (∀ x ∈ pre, x ∈ opt) ∧ w ∉ opt ∧
        check_and_convert_to_indices opt (PyDefault.list dvs) =
          Except.error (PyError.streamlitAPIException (invalidDefaultMsg w))) ∧
    (∀ n : Int, n ≠ 0 → PyScalar.int n ∉ opt →
      check_and_convert_to_indices opt (PyDefault.scalar (PyScalar.int n)) =
        Except.error (PyError.typeError "int object is not iterable")) := by
  constructor
  · rintro dvs ⟨v, hv, hnv⟩
    have hsome : (dvs.find? (fun x => !(opt.contains x))).isSome := by
      rw [List.find?_isSome]
      exact ⟨v, hv, by simp [hnv]⟩
    obtain ⟨w, hw⟩ := Option.isSome_iff_exists.mp hsome
    obtain ⟨hpw, pre, suf, hsplit, hpre⟩ := List.find?_eq_some.mp hw
    refine ⟨pre, w, suf, hsplit, ?_, by simpa using hpw, ?_⟩
    · intro x hx
      simpa using hpre x hx
    · rw [ccti_list_eq, hw]
  · intro n hn hmem
    unfold check_and_convert_to_indices
    rw [if_neg (by simp)]
    dsimp only
    rw [if_pos ⟨by simp [pyTruthy, hn], hmem⟩]
    rfl

/-- C2 witness: the amended theorem applied at `options=[1,2,3]` with the
two-offender list default `[5, 7]` — the raised message mentions the first
offender `5`, not `7` — and with the scalar default `5`. -/
theorem C2_invalid_default_behaviour_witness :
    check_and_convert_to_indices [PyScalar.int 1, PyScalar.int 2, PyScalar.int 3]
        (PyDefault.list [PyScalar.int 5, PyScalar.int 7]) =
      Except.error (PyError.streamlitAPIException (invalidDefaultMsg (PyScalar.int 5))) ∧
    check_and_convert_to_indices [PyScalar.int 1, PyScalar.int 2, PyScalar.int 3]
        (PyDefault.scalar (PyScalar.int 5)) =
      Except.error (PyError.typeError "int object is not iterable") := by
  constructor
  · obtain ⟨pre, w, suf, hsplit, hpre, _, heq⟩ :=
      (C2_invalid_default_behaviour [PyScalar.int 1, PyScalar.int 2, PyScalar.int 3]).1
        [PyScalar.int 5, PyScalar.int 7] ⟨PyScalar.int 5, by decide, by decide⟩
    cases pre with
    | nil =>
        rw [List.nil_append] at hsplit
        injection hsplit with h1 _
        rw [← h1] at heq
        exact heq
    | cons a t =>
        rw [List.cons_append] at hsplit
        injection hsplit with h1 _
        have ha : a ∈ [PyScalar.int 1, PyScalar.int 2, PyScalar.int 3] :=
          hpre a (List.mem_cons_self a t)
        rw [← h1] at ha
        exact absurd ha (by decide)
  · exact (C2_invalid_default_behaviour [PyScalar.int 1, PyScalar.int 2, PyScalar.int 3]).2
      5 (by decide) (by decide)

/-! ## Claim C3 -/

/-- C3 (confirmed): for every list of values drawn from the serde's
OptionSet snapshot, `deserialize (serialize v) = v`. -/
theorem C3_serde_round_trip (s : MultiSelectSerde) (v : List PyScalar)
    (h : ∀ x ∈ v, x ∈ s.options) :
    (s.serialize v).bind (fun idx => s.deserialize (Option.some idx)) = Except.ok v := by
  rw [serialize_eq_of_mem s v h]
  show s.deserialize (Option.some (v.map (fun x => s.options.indexOf x))) = Except.ok v
  unfold MultiSelectSerde.deserialize
  exact deserialize_map_indexOf s.options v h

/-- C3 witness: the round trip at `options=[a,b,c]` and value `[b,a,c]`. -/
theorem C3_serde_round_trip_witness :
    (MultiSelectSerde.serialize
        ⟨[PyScalar.str "a", PyScalar.str "b", PyScalar.str "c"], []⟩
        [PyScalar.str "b", PyScalar.str "a", PyScalar.str "c"]).bind
      (fun idx => MultiSelectSerde.deserialize
        ⟨[PyScalar.str "a", PyScalar.str "b", PyScalar.str "c"], []⟩
        (Option.some idx)) =
      Except.ok [PyScalar.str "b", PyScalar.str "a", PyScalar.str "c"] :=
  C3_serde_round_trip
    ⟨[PyScalar.str "a", PyScalar.str "b", PyScalar.str "c"], []⟩
    [PyScalar.str "b", PyScalar.str "a", PyScalar.str "c"] (by decide)

/-! ## Claim C4 -/

/-- C4 (counterexample): on a concrete registration the execution trace is
max-selections check, then enum coercion, then emission — the coercion does
not precede the check, refuting "validation runs strictly after the coercion
step". -/
theorem C4_counterexample :
    (register_widget_and_enqueue_tail
        ⟨PyValue.list [PyScalar.int 1, PyScalar.int 2, PyScalar.int 3], false⟩ {} []
        (fun _ => []) (Option.some 5)).1 =
      [RegStep.maxSelectionsCheck 3, RegStep.enumCoercion, RegStep.emit] ∧
    stepPrecedes
      (register_widget_and_enqueue_tail
        ⟨PyValue.list [PyScalar.int 1, PyScalar.int 2, PyScalar.int 3], false⟩ {} []
        (fun _ => []) (Option.some 5)).1
      RegStep.isCoercion RegStep.isMaxCheck = false ∧
    stepPrecedes
      (register_widget_and_enqueue_tail
        ⟨PyValue.list [PyScalar.int 1, PyScalar.int 2, PyScalar.int 3], false⟩ {} []
        (fun _ => []) (Option.some 5)).1
      RegStep.isMaxCheck RegStep.isCoercion = true := by
  refine ⟨rfl, ?_, ?_⟩ <;> rfl

/-- C4 (amended): in every registration the max-selections validation runs
strictly before the enum-coercion step, and the cardinality it counts is
that of the post-registration, pre-coercion value: the trace is either the
check alone (when it raises) or check, coercion, emission in that order,
with the check counting `get_default_count` of the registered value. -/
theorem C4_max_check_before_coercion (ws : RegisterWidgetResult)
    (proto : ButtonGroupProto) (iopts : List PyScalar)
    (ser : PyValue → List Nat) (m : Option Int) :
    (register_widget_and_enqueue_tail ws proto iopts ser m).1 =
        [RegStep.maxSelectionsCheck (get_default_count ws.value)] ∨
      (register_widget_and_enqueue_tail ws proto iopts ser m).1 =
        [RegStep.maxSelectionsCheck (get_default_count ws.value),
         RegStep.enumCoercion, RegStep.emit] := by
  unfold register_widget_and_enqueue_tail
  dsimp only
  split
  · exact Or.inl rfl
  · exact Or.inr rfl

/-! ## Claim C5 -/

/-- C5 (confirmed): when `value_changed` is false, the emission step leaves
the proto's override fields (`value`, `set_value`) exactly as built — they
are populated only if `value_changed` is true. -/
theorem C5_unchanged_widget_leaves_proto_untouched (ws : RegisterWidgetResult)
    (proto : ButtonGroupProto) (iopts : List PyScalar)
    (ser : PyValue → List Nat) (m : Option Int)
    (h : ws.value_changed = false) :
    ∀ p2 v, (register_widget_and_enqueue_tail ws proto iopts ser m).2 = Except.ok (p2, v) →
      p2.value = proto.value ∧ p2.set_value = proto.set_value := by
  intro p2 v hok
  unfold register_widget_and_enqueue_tail at hok
  dsimp only at hok
  split at hok
  · exact absurd hok (by simp)
  · rw [coerce_widget_value_changed ws iopts, h] at hok
    simp only [Bool.false_eq_true, if_false] at hok
    obtain ⟨hp, _⟩ := Prod.mk.injEq .. ▸ Except.ok.inj hok
    rw [← hp]
    exact ⟨rfl, rfl⟩

/-- C5 witness: the theorem applied to a concrete unchanged widget whose
built proto carries `value=[7]`, `set_value=false`. -/
theorem C5_unchanged_widget_leaves_proto_untouched_witness :
    ({ value := [7] } : ButtonGroupProto).value = ({ value := [7] } : ButtonGroupProto).value ∧
    ({ value := [7] } : ButtonGroupProto).set_value =
      ({ value := [7] } : ButtonGroupProto).set_value :=
  C5_unchanged_widget_leaves_proto_untouched
    ⟨PyValue.list [PyScalar.int 1], false⟩ { value := [7] } [] (fun _ => []) Option.none
    rfl { value := [7] } (PyValue.list [PyScalar.int 1]) rfl

/-! ## Claim C6 -/

/-- C6 (counterexample): with `max_selections = 0` (falsy in Python) and a
registered value of one element, `len(value) > max` holds yet registration
succeeds without raising — refuting "fails exactly when
`len(value) > max`". -/
theorem C6_counterexample :
    (register_widget_and_enqueue_tail ⟨PyValue.list [PyScalar.int 1], false⟩ {} []
        (fun _ => []) (Option.some 0)).2 =
      Except.ok ({}, PyValue.list [PyScalar.int 1]) ∧
    get_default_count (PyValue.list [PyScalar.int 1]) = 1 ∧ ((1 : Int) > 0) := by
  refine ⟨rfl, rfl, by decide⟩

/-- C6 (amended): given a nonzero maximum-cardinality limit, registration
fails with the descriptive error exactly when the registered count exceeds
the limit (a limit of `0` is falsy in Python and disables the check); the
message distinguishes singular and plural and, for 3 selected versus a limit
of 2, cites "3 options" and "is set to 2". -/
theorem C6_max_selections_enforced (ws : RegisterWidgetResult)
    (proto : ButtonGroupProto) (iopts : List PyScalar)
    (ser : PyValue → List Nat) (m : Int) :
    ((m ≠ 0 ∧ (get_default_count ws.value : Int) > m) →
      (register_widget_and_enqueue_tail ws proto iopts ser (Option.some m)).2 =
        Except.error (PyError.streamlitAPIException
          (get_over_max_options_message (get_default_count ws.value) m))) ∧
    ((m = 0 ∨ (get_default_count ws.value : Int) ≤ m) →
      ∃ r, (register_widget_and_enqueue_tail ws proto iopts ser (Option.some m)).2 =
        Except.ok r) ∧
    strContains (get_over_max_options_message 3 2) "3 options" = true ∧
    strContains (get_over_max_options_message 3 2) "is set to 2" = true ∧
    strContains (get_over_max_options_message 1 1) "1 option selected" = true ∧
    strContains (get_over_max_options_message 1 1) "at most 1 option." = true := by
  refine ⟨?_, ?_, by decide, by decide, by decide, by decide⟩
  · rintro ⟨hm, hgt⟩
    unfold register_widget_and_enqueue_tail
    dsimp only
    rw [if_pos ⟨by simpa using hm, by simpa using hgt⟩]
    rfl
  · intro hb
    unfold register_widget_and_enqueue_tail
    dsimp only
    rw [if_neg]
    · exact ⟨_, rfl⟩
    · rintro ⟨hm, hgt⟩
      rcases hb with h0 | hle
      · exact hm (by simp [h0])
      · exact absurd hgt (by simpa using not_lt.mpr hle)

/-- C6 witness: the amended theorem applied at a registered value of three
elements with `max_selections=2` (the spec's
`options=[1,2,3,4,5], default=[1,2,3]` scenario). -/
theorem C6_max_selections_enforced_witness :
    (register_widget_and_enqueue_tail
        ⟨PyValue.list [PyScalar.int 1, PyScalar.int 2, PyScalar.int 3], false⟩ {} []
        (fun _ => []) (Option.some 2)).2 =
      Except.error (PyError.streamlitAPIException (get_over_max_options_message 3 2)) :=
  (C6_max_selections_enforced
    ⟨PyValue.list [PyScalar.int 1, PyScalar.int 2, PyScalar.int 3], false⟩ {} []
    (fun _ => []) 2).1 ⟨by decide, by decide⟩

/-! ## Claim C7 -/

/-- C7 (counterexample): with an empty navigation table (an empty page list
is a legal `list[Page]` argument, wrapped as `{"": []}`), a current page
identity is necessarily absent, and `navigation` raises `IndexError` from
`list(page_dict.values())[0]` instead of returning a fallback page. -/
theorem C7_counterexample :
    navigation (fun s => s) [("", [])] "x" = Except.error PyError.indexError := rfl

/-- C7 (amended): for every navigation table containing at least one page
and every current page identity not present in the table, `navigation` does
not raise: it prints the fallback diagnostic and returns the first entry of
the page dict; with an empty table it instead raises `IndexError`. -/
theorem C7_missing_page_falls_back (md5 : String → String)
    (pages : List (String × List Page)) (h : String)
    (hne : navPageDict md5 pages ≠ [])
    (hmiss : ∀ kv ∈ navPageDict md5 pages, kv.1 ≠ h) :
    ∃ first rest, navPageDict md5 pages = first :: rest ∧
      navigation md5 pages h = Except.ok (first.2, true) := by
  have hfind : (navPageDict md5 pages).find? (fun kv => kv.1 = h) = Option.none := by
    rw [List.find?_eq_none]
    intro kv hkv
    simp [hmiss kv hkv]
  rcases hd : navPageDict md5 pages with _ | ⟨first, rest⟩
  · exact absurd hd hne
  · refine ⟨first, rest, rfl, ?_⟩
    unfold navigation
    dsimp only
    rw [hd] at hfind
    rw [hd, hfind]

/-- C7 witness: two pages keyed by an identity hash, looked up with an
identity present for neither; the first page comes back with the
diagnostic flag set. -/
theorem C7_missing_page_falls_back_witness :
    navigation (fun s => s)
        [("", [{ page := "p1" }, { page := "p2" }])] "zz" =
      Except.ok ({ page := "p1" }, true) := by
  obtain ⟨first, rest, hd, hnav⟩ :=
    C7_missing_page_falls_back (fun s => s)
      [("", [{ page := "p1" }, { page := "p2" }])] "zz" (by decide) (by decide)
  have hdict : navPageDict (fun s => s)
      [("", [{ page := "p1" }, { page := "p2" }])] =
      [("p1", { page := "p1" }), ("p2", { page := "p2" })] := rfl
  rw [hdict] at hd
  injection hd with h1 h2
  rw [← h1] at hnav
  exact hnav

/-! ## Claim C8 -/

/-- C8 (confirmed): widget identity is a pure deterministic function of its
arguments — two identities agree exactly when every input field (kind,
user key, key, formatted options, default indices, disabled flag,
selection-visualization field, page identity) agrees, so identical calls
give identical identities and changing any single input changes the
identity. -/
theorem C8_widget_identity_deterministic (wn : String) (uk k : Option String)
    (o : List String) (d : List Nat) (dis : Bool) (sv : Nat) (pg : Option String)
    (wn2 : String) (uk2 k2 : Option String) (o2 : List String) (d2 : List Nat)
    (dis2 : Bool) (sv2 : Nat) (pg2 : Option String) :
    compute_widget_id wn uk k o d dis sv pg = compute_widget_id wn2 uk2 k2 o2 d2 dis2 sv2 pg2 ↔
      (wn = wn2 ∧ uk = uk2 ∧ k = k2 ∧ o = o2 ∧ d = d2 ∧ dis = dis2 ∧ sv = sv2 ∧ pg = pg2) := by
  unfold compute_widget_id
  simp [WidgetIdentity.mk.injEq]

/-! ## Claim C9 -/

/-- C9 (confirmed): a string option label outside the recognized set makes
`feedback` raise the invalid-feedback-option error, whose message names the
allowed labels thumbs, faces and stars; the three recognized labels pass the
check. -/
theorem C9_feedback_invalid_option (s : String) (h : s ∉ feedbackOptionLabels) :
    feedback_check_options (FeedbackArg.str s) =
      Except.error (PyError.streamlitAPIException
        ("The options argument to st.feedback must be one of [thumbs, faces, stars]. The argument passed was "
          ++ s ++ ".")) ∧
    feedback_check_options (FeedbackArg.str "thumbs") = Except.ok () ∧
    feedback_check_options (FeedbackArg.str "faces") = Except.ok () ∧
    feedback_check_options (FeedbackArg.str "stars") = Except.ok () := by
  refine ⟨?_, rfl, rfl, rfl⟩
  unfold feedback_check_options
  dsimp only
  rw [if_pos h]
  rfl

/-- C9 witness: the theorem applied at the unrecognized label "bogus". -/
theorem C9_feedback_invalid_option_witness :
    feedback_check_options (FeedbackArg.str "bogus") =
      Except.error (PyError.streamlitAPIException
        ("The options argument to st.feedback must be one of [thumbs, faces, stars]. The argument passed was "
          ++ "bogus" ++ ".")) ∧
    feedback_check_options (FeedbackArg.str "thumbs") = Except.ok () ∧
    feedback_check_options (FeedbackArg.str "faces") = Except.ok () ∧
    feedback_check_options (FeedbackArg.str "stars") = Except.ok () :=
  C9_feedback_invalid_option "bogus" (by decide)

/-! ## Claim C10 -/

/-- C10 (confirmed): a list-typed `options` argument short-circuits the
feedback options check entirely — the invalid-feedback-option error is never
raised for a list, regardless of its contents. -/
theorem C10_feedback_list_skips_check (xs : List PyScalar) :
    feedback_check_options (FeedbackArg.list xs) = Except.ok () := rfl
